import Mathlib

/-!
Verification development for the Temperature Reader application
(`src/temperature_reader.py`).

The program is a single-file Tkinter application.  This file gives a
shallow embedding of its logic:

* Python string primitives used by the code (`str.strip`, `str.split`)
  are modelled character-exactly on `List Char`;
* Python's built-in `float` conversion is modelled by `parsePyFloat`,
  mapping finite decimal literals to exact rationals (`ℚ`);
* the file system is a map from paths to a `FileState`, whose error
  constructors stand for the exceptions the code catches
  (`FileNotFoundError`, `IOError`, any other `Exception`);
* the mutable widget state of the `TemperatureReader` class is the
  record `AppState`; `root.after` callbacks are counted by the field
  `pending`; `messagebox.showerror` calls are accumulated in `errors`;
  console `print` output of the parser is returned alongside its value.
-/

/-- The ASCII whitespace characters stripped by Python's `str.strip()`
(space, tab, newline, carriage return, vertical tab, form feed). -/
def pyIsSpace (c : Char) : Bool :=
  c = ' ' || c = '\t' || c = '\n' || c = '\r' || c = '\x0b' || c = '\x0c'

/-- Python `str.strip()` on a character list: drop whitespace from both ends. -/
def stripChars (cs : List Char) : List Char :=
  ((cs.dropWhile pyIsSpace).reverse.dropWhile pyIsSpace).reverse

/-- Python `str.strip()` (line 112 of the source: `lines[-1].strip()`). -/
def pyStrip (s : String) : String :=
  String.mk (stripChars s.toList)

/-- Python `str.split(sep)` for a one-character separator: splitting the
empty string yields one empty field, and `n` separators yield `n + 1`
fields. -/
def splitOnChar (sep : Char) : List Char → List (List Char)
  | [] => [[]]
  | c :: cs =>
    let r := splitOnChar sep cs
    if c = sep then [] :: r
    else
      match r with
      | [] => [[c]]
      | h :: t => (c :: h) :: t

/-- Python `latest_line.split(';')` (line 113 of the source). -/
def pySplitSemi (s : String) : List String :=
  (splitOnChar ';' s.toList).map String.mk

/-- Numeric value of a digit string (most significant digit first). -/
def natOfDigits (cs : List Char) : Nat :=
  cs.foldl (fun a c => 10 * a + (c.toNat - 48)) 0

/-- Mantissa of a Python float literal: `digits`, `digits.`, `.digits` or
`digits.digits`, with at least one digit.  Returns the digits' value
together with the number of fractional digits. -/
def parseMantissa (cs : List Char) : Option (Nat × Nat) :=
  let ip := cs.takeWhile (· ≠ '.')
  let rest := cs.dropWhile (· ≠ '.')
  match rest with
  | [] =>
    if ip.isEmpty then none
    else if ip.all Char.isDigit then some (natOfDigits ip, 0) else none
  | _ :: frac =>
    if frac.any (· = '.') then none
    else if ip.isEmpty && frac.isEmpty then none
    else if ip.all Char.isDigit && frac.all Char.isDigit then
      some (natOfDigits ip * 10 ^ frac.length + natOfDigits frac, frac.length)
    else none

/-- Exponent part of a Python float literal: an optional sign followed by
at least one digit. -/
def parseExpPart (cs : List Char) : Option Int :=
  let (neg, ds) :=
    match cs with
    | '-' :: r => (true, r)
    | '+' :: r => (false, r)
    | r => (false, r)
  if ds.isEmpty then none
  else if ds.all Char.isDigit then
    some (if neg then -(natOfDigits ds : Int) else (natOfDigits ds : Int))
  else none

/-- The exact rational `±m / 10 ^ s · 10 ^ e`, built with integer
arithmetic and a single `mkRat` so that it evaluates by kernel
reduction. -/
def decimalToRat (neg : Bool) (m : Nat) (s : Nat) (e : Int) : ℚ :=
  let mi : Int := if neg then -(m : Int) else (m : Int)
  let d : Int := e - (s : Int)
  if 0 ≤ d then mkRat (mi * 10 ^ d.toNat) 1 else mkRat mi (10 ^ (-d).toNat)

/-- Model of Python's built-in `float(text)` conversion (line 117 of the
source), restricted to finite decimal literals: surrounding whitespace,
an optional sign, a decimal mantissa and an optional `e`/`E` exponent.
The value is the exact rational denoted by the literal; `none` stands
for the `ValueError` the code catches.  The special forms `inf`,
`infinity`, `nan` and digit-group underscores are outside the model
(nothing in the repository exercises them). -/
def parsePyFloat (s : String) : Option ℚ :=
  let t := stripChars s.toList
  let (neg, u) :=
    match t with
    | '-' :: r => (true, r)
    | '+' :: r => (false, r)
    | r => (false, r)
  let mant := u.takeWhile (fun c => !(c = 'e' || c = 'E'))
  let rest := u.dropWhile (fun c => !(c = 'e' || c = 'E'))
  match parseMantissa mant with
  | none => none
  | some (m, sc) =>
    match rest with
    | [] => some (decimalToRat neg m sc 0)
    | _ :: ex =>
      match parseExpPart ex with
      | some e => some (decimalToRat neg m sc e)
      | none => none

/-- What the code can observe of a path: the file is missing
(`FileNotFoundError`), unreadable (`IOError`), fails in some other way
(any other `Exception`), or holds a list of lines (the result of
`f.readlines()`; an empty file yields the empty list). -/
inductive FileState where
  | notFound
  | ioError (msg : String)
  | otherError (msg : String)
  | content (lines : List String)

/-- A file system: what opening each path yields. -/
def FileSystem := String → FileState

/-- Body of `read_latest_temperature` (source lines 105-133) applied to
the state of the opened file.  First component: the returned value
(`none` is Python's `None`).  Second component: the console messages
printed on that path through the code. -/
def readFrom : FileState → Option ℚ × List String
  | .notFound => (none, ["File not found."])
  | .ioError e => (none, ["File error: " ++ e])
  | .otherError e => (none, ["Unexpected error: " ++ e])
  | .content lines =>
    match lines.getLast? with
    | none => (none, ["No valid lines found in the file."])
    | some lastLine =>
      match pySplitSemi (pyStrip lastLine) with
      | [_, _, third] =>
        match parsePyFloat third with
        | some temperature => (some temperature, [])
        | none => (none, ["Invalid temperature value: " ++ third])
      | _ => (none, ["No valid lines found in the file."])

/-- `read_latest_temperature(self, file)` (source lines 105-133):
open the file — modelled as the file-system lookup — and parse its last
line. -/
def read_latest_temperature (fs : FileSystem) (file : String) :
    Option ℚ × List String :=
  readFrom (fs file)

/-- Round the rational `a / b` (with `b > 0`) to the nearest integer,
ties to even — the rounding used by Python's fixed-point formatting. -/
def roundHalfEvenPair (a b : Int) : Int :=
  let f := Int.fdiv a b
  let r := a - f * b
  if 2 * r < b then f
  else if b < 2 * r then f + 1
  else if f % 2 = 0 then f else f + 1

/-- Decimal digits of a natural number, two digits wide. -/
def pad2 (k : Nat) : String :=
  if k < 10 then "0" ++ toString k else toString k

/-- Model of the f-string `f"{latest_temp:.2f}"` (source line 92):
round to two decimals (ties to even), always print two fractional
digits, with a leading minus sign for negative inputs. -/
def formatFixed2 (q : ℚ) : String :=
  let n := roundHalfEvenPair (100 * q.num) (q.den : Int)
  let sign := if q.num < 0 then "-" else ""
  let m := n.natAbs
  sign ++ toString (m / 100) ++ "." ++ pad2 (m % 100)

/-- The mutable state of the `TemperatureReader` object, together with
its observable effects.  `file_path` is the `StringVar` (its initial
value is the empty string, which Python's `if not file:` treats as
unset); `label_text` is the text of `temperature_label`; `pending`
counts the `root.after` callbacks currently armed; `errors` accumulates
the `messagebox.showerror` messages shown. -/
structure AppState where
  file_path : String
  label_text : String
  font_size : Int
  bg_color : String
  pending : Nat
  errors : List String
deriving DecidableEq

/-- The state built by `__init__` and `create_widgets` (source lines
27-51): no file selected, label `--`, font size 10, white background,
no timer armed. -/
def initialState : AppState :=
  { file_path := ""
    label_text := "--"
    font_size := 10
    bg_color := "white"
    pending := 0
    errors := [] }

/-- `schedule_update` (source lines 101-103): arm one more
`root.after(update_interval, update_temperature)` callback. -/
def schedule_update (s : AppState) : AppState :=
  { s with pending := s.pending + 1 }

/-- `update_temperature` (source lines 80-99).  With no path set it
shows an error and returns early; otherwise it parses the file, writes
the formatted value (or `--` plus an error) to the label, and calls
`schedule_update`. -/
def update_temperature (fs : FileSystem) (s : AppState) : AppState :=
  if s.file_path = "" then
    { s with errors := s.errors ++ ["Please select a file first"] }
  else
    schedule_update
      (match (read_latest_temperature fs s.file_path).1 with
       | some latest_temp => { s with label_text := formatFixed2 latest_temp }
       | none =>
         { s with
             label_text := "--"
             errors := s.errors ++ ["Failed to read temperature data."] })

/-- `select_file` (source lines 72-78).  `file_selected` is what the
file dialog returned (the empty string when the dialog was cancelled):
a non-empty selection is stored in `file_path` and immediately followed
by `update_temperature`. -/
def select_file (fs : FileSystem) (s : AppState) (file_selected : String) :
    AppState :=
  if file_selected ≠ "" then
    update_temperature fs { s with file_path := file_selected }
  else s

/-- Models `tkinter.simpledialog.askinteger` called with `minvalue=1`
(source line 137): the dialog returns `none` when cancelled and never
returns a value below the minimum (it refuses such input). -/
def askinteger_min1 (userInput : Option Int) : Option Int :=
  match userInput with
  | some n => if 1 ≤ n then some n else none
  | none => none

/-- `change_font_size` (source lines 135-141): store the dialog result
when there is one. -/
def change_font_size (s : AppState) (userInput : Option Int) : AppState :=
  match askinteger_min1 userInput with
  | some new_size => { s with font_size := new_size }
  | none => s

/-- `change_bg_color` (source lines 143-150): `askstring` returns
`none` when cancelled, and `if color:` rejects the empty string. -/
def change_bg_color (s : AppState) (userInput : Option String) : AppState :=
  match userInput with
  | some color => if color ≠ "" then { s with bg_color := color } else s
  | none => s

/-- The events the single-threaded Tk event loop can deliver to the
application: a firing of an armed `after` callback, and the four menu
commands (each carrying its dialog's result). -/
inductive Event where
  | timerFire
  | menuUpdate
  | menuSelect (dialog : String)
  | menuFontSize (dialog : Option Int)
  | menuBgColor (dialog : Option String)

/-- One step of the event loop.  A timer firing consumes one armed
callback and runs `update_temperature`; the menu commands invoke the
corresponding methods. -/
def stepEvent (fs : FileSystem) (s : AppState) : Event → AppState
  | .timerFire =>
    if 0 < s.pending then
      update_temperature fs { s with pending := s.pending - 1 }
    else s
  | .menuUpdate => update_temperature fs s
  | .menuSelect d => select_file fs s d
  | .menuFontSize d => change_font_size s d
  | .menuBgColor d => change_bg_color s d

/-- Run a list of events from a state. -/
def runEvents (fs : FileSystem) (s : AppState) (evs : List Event) : AppState :=
  evs.foldl (stepEvent fs) s

/-- The display text `update_temperature` derives from a parse result:
the value formatted to two decimals on success, `--` on failure. -/
def displayOf : Option ℚ → String
  | some t => formatFixed2 t
  | none => "--"

/-- The method `read_latest_temperature` as an action on the object:
its body assigns no attribute of `self` and touches no global, so the
embedding returns the application state unchanged next to the result. -/
def read_latest_temperature_method (s : AppState) (fs : FileSystem)
    (file : String) : (Option ℚ × List String) × AppState :=
  (readFrom (fs file), s)

example : pySplitSemi "a;b;12.34" = ["a", "b", "12.34"] := by decide
example : pySplitSemi "" = [""] := by decide
example : pyStrip "  a;b \n" = "a;b" := by decide
example : parsePyFloat "12.34" = some (mkRat 1234 100) := by decide
example : parsePyFloat " -1.5e2 " = some (mkRat (-150) 1) := by decide
example : parsePyFloat "xyz" = none := by decide
example : parsePyFloat "" = none := by decide
example : parsePyFloat "." = none := by decide
example : parsePyFloat ".5" = some (mkRat 1 2) := by decide
example : parsePyFloat "3." = some (mkRat 3 1) := by decide
example :
    read_latest_temperature (fun _ => FileState.content ["a;b;12.34"]) "p"
      = (some (mkRat 1234 100), []) := by decide
example :
    read_latest_temperature (fun _ => FileState.content ["a;b"]) "p"
      = (none, ["No valid lines found in the file."]) := by decide
example : formatFixed2 (mkRat 41 2) = "20.50" := by decide
example : formatFixed2 (mkRat 1234 100) = "12.34" := by decide
example :
    (update_temperature (fun _ => FileState.content ["x;y;10.0", "a;b;20.5"])
      { initialState with file_path := "log" }).label_text = "20.50" := by decide
example :
    (update_temperature (fun _ => FileState.notFound) initialState).pending
      = 0 := by decide

/-- Successful parse of the last line: three fields whose third is a
valid float literal. -/
lemma readFrom_success (lines : List String) (lastLine a b c : String) (q : ℚ)
    (hlast : lines.getLast? = some lastLine)
    (hsplit : pySplitSemi (pyStrip lastLine) = [a, b, c])
    (hq : parsePyFloat c = some q) :
    readFrom (FileState.content lines) = (some q, []) := by
  simp [readFrom, hlast, hsplit, hq]

/-- When a path is set, `update_temperature` ends in `schedule_update`
on both branches, arming one more callback. -/
lemma update_pending_arm (fs : FileSystem) (s : AppState)
    (h : s.file_path ≠ "") :
    (update_temperature fs s).pending = s.pending + 1 := by
  unfold update_temperature
  rw [if_neg h]
  cases hm : (read_latest_temperature fs s.file_path).1 <;>
    simp [hm, schedule_update]

/-- `update_temperature` never changes the font size. -/
lemma update_temperature_font (fs : FileSystem) (s : AppState) :
    (update_temperature fs s).font_size = s.font_size := by
  unfold update_temperature
  split
  · rfl
  · unfold schedule_update
    cases hm : (read_latest_temperature fs s.file_path).1 <;> simp [hm]

/-- `select_file` never changes the font size. -/
lemma select_file_font (fs : FileSystem) (s : AppState) (d : String) :
    (select_file fs s d).font_size = s.font_size := by
  unfold select_file
  split
  · exact update_temperature_font fs _
  · rfl

/-- `change_font_size` preserves positivity of the font size. -/
lemma change_font_size_pos (s : AppState) (u : Option Int)
    (h : 0 < s.font_size) : 0 < (change_font_size s u).font_size := by
  unfold change_font_size askinteger_min1
  cases u with
  | none => exact h
  | some n =>
    by_cases h1 : 1 ≤ n
    · simp only [if_pos h1]
      omega
    · simp only [if_neg h1]
      exact h

/-- Every event-loop step preserves positivity of the font size. -/
lemma step_font_pos (fs : FileSystem) (s : AppState) (e : Event)
    (h : 0 < s.font_size) : 0 < (stepEvent fs s e).font_size := by
  cases e with
  | timerFire =>
    show 0 < (if 0 < s.pending then
        update_temperature fs { s with pending := s.pending - 1 }
      else s).font_size
    split
    · rw [update_temperature_font]; exact h
    · exact h
  | menuUpdate =>
    show 0 < (update_temperature fs s).font_size
    rw [update_temperature_font]; exact h
  | menuSelect d =>
    show 0 < (select_file fs s d).font_size
    rw [select_file_font]; exact h
  | menuFontSize d => exact change_font_size_pos s d h
  | menuBgColor d =>
    show 0 < (change_bg_color s d).font_size
    cases d with
    | none => exact h
    | some c =>
      show 0 < (if c ≠ "" then { s with bg_color := c } else s).font_size
      split <;> exact h

/-- Positivity of the font size is invariant under any event list. -/
lemma runEvents_font_pos (fs : FileSystem) :
    ∀ (evs : List Event) (s : AppState), 0 < s.font_size →
      0 < (runEvents fs s evs).font_size := by
  intro evs
  induction evs with
  | nil => intro s h; exact h
  | cons e t ih => intro s h; exact ih _ (step_font_pos fs s e h)

/-- A `Select File` event with a non-empty dialog result arms one more
timer callback. -/
lemma select_log_pending (fs : FileSystem) (s : AppState) :
    (stepEvent fs s (Event.menuSelect "log")).pending = s.pending + 1 := by
  show (select_file fs s "log").pending = s.pending + 1
  unfold select_file
  rw [if_pos (by decide : ("log" : String) ≠ "")]
  have hlog : ({ s with file_path := "log" } : AppState).file_path ≠ "" := by
    show ("log" : String) ≠ ""
    decide
  rw [update_pending_arm fs { s with file_path := "log" } hlog]

/-- `n` consecutive file selections arm `n` additional timer chains. -/
lemma select_chain_pending (fs : FileSystem) :
    ∀ (n : Nat) (s : AppState),
      (runEvents fs s (List.replicate n (Event.menuSelect "log"))).pending
        = s.pending + n := by
  intro n
  induction n with
  | zero => intro s; rfl
  | succ k ih =>
    intro s
    show (runEvents fs (stepEvent fs s (Event.menuSelect "log"))
        (List.replicate k (Event.menuSelect "log"))).pending = s.pending + (k + 1)
    rw [ih, select_log_pending]
    omega

/-- C1 (counterexample): the claim says every invocation of
`update_temperature` re-arms the timer, including the aborted tick taken
when no path is set.  The code returns early in that branch (source line
86) before reaching `schedule_update`, so from the initial state (no
path selected) a tick arms no new callback. -/
theorem c1_aborted_tick_counterexample :
    (update_temperature (fun _ => FileState.notFound) initialState).pending
        = initialState.pending
    ∧ ¬ (update_temperature (fun _ => FileState.notFound)
          initialState).pending = initialState.pending + 1 := by
  decide

/-- C1 (amended): `update_temperature` re-arms the timer on both the
parse-success and parse-failure branches — whenever a path is set — but
the aborted tick taken when no path is set returns early without
re-arming, leaving the number of armed callbacks unchanged. -/
theorem c1_rearm_amended (fs : FileSystem) (s : AppState) :
    (s.file_path ≠ "" → (update_temperature fs s).pending = s.pending + 1)
    ∧ (s.file_path = "" → (update_temperature fs s).pending = s.pending) := by
  constructor
  · exact fun h => update_pending_arm fs s h
  · intro h
    unfold update_temperature
    rw [if_pos h]

/-- Witness for C1 (amended) at a concrete state with a path set and an
unreadable file. -/
theorem c1_rearm_amended_witness :
    (update_temperature (fun _ => FileState.ioError "e")
        { initialState with file_path := "t.txt" }).pending
      = { initialState with file_path := "t.txt" }.pending + 1 :=
  (c1_rearm_amended (fun _ => FileState.ioError "e")
      { initialState with file_path := "t.txt" }).1 (by decide)

/-- C2 (counterexample): the claim says the parser returns a typed
failure reason distinguishing the five failure kinds.  An empty file
(the spec's `EmptyFile` case) and a two-field last line (the spec's
`MalformedLine` case) produce identical outputs — the same returned
value `none` and even the same console message — so the result does not
distinguish the kinds. -/
theorem c2_typed_failure_counterexample :
    readFrom (FileState.content []) = readFrom (FileState.content ["a;b"])
    ∧ (readFrom (FileState.content [])).1 = none := by
  decide

/-- C2 (amended): `read_latest_temperature` signals every failure kind
by the same undifferentiated return value `None`; the kinds differ only
in the console message printed, and even there the empty-file and
malformed-line cases share one message. -/
theorem c2_failure_reporting_amended :
    readFrom FileState.notFound = (none, ["File not found."])
    ∧ (∀ e, readFrom (FileState.ioError e) = (none, ["File error: " ++ e]))
    ∧ readFrom (FileState.content [])
        = (none, ["No valid lines found in the file."])
    ∧ readFrom (FileState.content ["a;b"])
        = (none, ["No valid lines found in the file."])
    ∧ readFrom (FileState.content ["a;b;xyz"])
        = (none, ["Invalid temperature value: xyz"]) :=
  ⟨by decide, fun e => rfl, by decide, by decide, by decide⟩

/-- C3 (confirmed): for every readable, non-empty file whose last line,
after stripping, splits on `;` into exactly three fields with a third
field parseable as a float, `read_latest_temperature` returns that
number (and prints nothing). -/
theorem c3_parse_success (fs : FileSystem) (file : String)
    (lines : List String) (lastLine a b c : String) (q : ℚ)
    (hfs : fs file = FileState.content lines)
    (hlast : lines.getLast? = some lastLine)
    (hsplit : pySplitSemi (pyStrip lastLine) = [a, b, c])
    (hq : parsePyFloat c = some q) :
    read_latest_temperature fs file = (some q, []) := by
  unfold read_latest_temperature
  rw [hfs]
  exact readFrom_success lines lastLine a b c q hlast hsplit hq

/-- Witness for C3: a file whose last line is `a;b;12.34` parses to
12.34 (the exact rational 1234/100). -/
theorem c3_parse_success_witness :
    read_latest_temperature (fun _ => FileState.content ["a;b;12.34"]) "log"
      = (some (mkRat 1234 100), []) :=
  c3_parse_success (fun _ => FileState.content ["a;b;12.34"]) "log"
    ["a;b;12.34"] "a;b;12.34" "a" "b" "12.34" (mkRat 1234 100)
    rfl (by decide) (by decide) (by decide)

/-- C4 (confirmed): with the path set to a file of two lines whose last
line has three fields ending in `20.5`, one refresh tick sets the label
to `20.50` — the earlier line is ignored and the value is formatted to
exactly two decimal places. -/
theorem c4_end_to_end (fs : FileSystem) (s : AppState) (l1 l2 a b : String)
    (hpath : s.file_path ≠ "")
    (hfs : fs s.file_path = FileState.content [l1, l2])
    (hsplit : pySplitSemi (pyStrip l2) = [a, b, "20.5"]) :
    (update_temperature fs s).label_text = "20.50" := by
  have hr : read_latest_temperature fs s.file_path
      = (some (mkRat 41 2), []) := by
    unfold read_latest_temperature
    rw [hfs]
    exact readFrom_success [l1, l2] l2 a b "20.5" (mkRat 41 2)
      rfl hsplit (by decide)
  unfold update_temperature
  rw [if_neg hpath, hr]
  show formatFixed2 (mkRat 41 2) = "20.50"
  decide

/-- Witness for C4 at the spec's concrete two-line file. -/
theorem c4_end_to_end_witness :
    (update_temperature
        (fun _ => FileState.content ["x;y;10.0", "a;b;20.5"])
        { initialState with file_path := "log" }).label_text = "20.50" :=
  c4_end_to_end (fun _ => FileState.content ["x;y;10.0", "a;b;20.5"])
    { initialState with file_path := "log" } "x;y;10.0" "a;b;20.5" "a" "b"
    (by decide) rfl (by decide)

/-- C5 (confirmed): for every readable, non-empty file whose stripped
last line splits on `;` into a number of fields other than three,
`read_latest_temperature` fails — it returns `None` and reports the
malformed line (through the code's shared no-valid-lines message).
This covers a blank or whitespace-only last line, which strips to the
empty string and splits into one empty field. -/
theorem c5_malformed_failure (fs : FileSystem) (file : String)
    (lines : List String) (lastLine : String) (parts : List String)
    (hfs : fs file = FileState.content lines)
    (hlast : lines.getLast? = some lastLine)
    (hsplit : pySplitSemi (pyStrip lastLine) = parts)
    (hlen : parts.length ≠ 3) :
    read_latest_temperature fs file
      = (none, ["No valid lines found in the file."]) := by
  rcases parts with _ | ⟨x, _ | ⟨y, _ | ⟨z, _ | ⟨w, t⟩⟩⟩⟩
  · simp [read_latest_temperature, readFrom, hfs, hlast, hsplit]
  · simp [read_latest_temperature, readFrom, hfs, hlast, hsplit]
  · simp [read_latest_temperature, readFrom, hfs, hlast, hsplit]
  · simp at hlen
  · simp [read_latest_temperature, readFrom, hfs, hlast, hsplit]

/-- Witness for C5: a whitespace-only last line and a two-field last
line both fail. -/
theorem c5_malformed_failure_witness :
    read_latest_temperature (fun _ => FileState.content ["a;b;1.0", "   "]) "t"
      = (none, ["No valid lines found in the file."])
    ∧ read_latest_temperature (fun _ => FileState.content ["a;b"]) "t"
      = (none, ["No valid lines found in the file."]) :=
  ⟨c5_malformed_failure (fun _ => FileState.content ["a;b;1.0", "   "]) "t"
      ["a;b;1.0", "   "] "   " [""] rfl (by decide) (by decide) (by decide),
   c5_malformed_failure (fun _ => FileState.content ["a;b"]) "t"
      ["a;b"] "a;b" ["a", "b"] rfl (by decide) (by decide) (by decide)⟩

/-- C6 (confirmed): the parser is deterministic and side-effect-free on
program state — it leaves the application state unchanged, and a second
call on the same path, while the file's content is unchanged, returns
exactly the same result. -/
theorem c6_parser_pure (s : AppState) (fs fs2 : FileSystem) (file : String)
    (hsame : fs file = fs2 file) :
    (read_latest_temperature_method s fs file).2 = s
    ∧ read_latest_temperature_method s fs file
        = read_latest_temperature_method
            ((read_latest_temperature_method s fs file).2) fs2 file := by
  refine ⟨rfl, ?_⟩
  unfold read_latest_temperature_method
  rw [hsame]

/-- Witness for C6 at a concrete state and file. -/
theorem c6_parser_pure_witness :
    (read_latest_temperature_method initialState
        (fun _ => FileState.content ["a;b;1.5"]) "p").2 = initialState
    ∧ read_latest_temperature_method initialState
        (fun _ => FileState.content ["a;b;1.5"]) "p"
      = read_latest_temperature_method
          ((read_latest_temperature_method initialState
              (fun _ => FileState.content ["a;b;1.5"]) "p").2)
          (fun _ => FileState.content ["a;b;1.5"]) "p" :=
  c6_parser_pure initialState (fun _ => FileState.content ["a;b;1.5"])
    (fun _ => FileState.content ["a;b;1.5"]) "p" rfl

/-- C7 (confirmed): selecting a non-empty path stores it and immediately
runs a synchronous refresh, so the displayed text equals the display
derived from parsing the newly selected path — never stale data from a
previously selected file. -/
theorem c7_select_refresh (fs : FileSystem) (s : AppState) (sel : String)
    (hsel : sel ≠ "") :
    (select_file fs s sel).file_path = sel
    ∧ (select_file fs s sel).label_text
        = displayOf (read_latest_temperature fs sel).1 := by
  cases hm : (read_latest_temperature fs sel).1 <;>
    exact ⟨by simp [select_file, hsel, update_temperature, hm, schedule_update],
      by simp [select_file, hsel, update_temperature, hm, schedule_update,
        displayOf]⟩

/-- Witness for C7: selecting a readable file shows its value. -/
theorem c7_select_refresh_witness :
    (select_file (fun _ => FileState.content ["a;b;20.5"]) initialState
        "new.txt").file_path = "new.txt"
    ∧ (select_file (fun _ => FileState.content ["a;b;20.5"]) initialState
        "new.txt").label_text
      = displayOf (read_latest_temperature
          (fun _ => FileState.content ["a;b;20.5"]) "new.txt").1 :=
  c7_select_refresh (fun _ => FileState.content ["a;b;20.5"]) initialState
    "new.txt" (by decide)

/-- C8 (confirmed): a font-size input of zero or below is rejected with
the stored size unchanged, and after any sequence of events from the
initial state the stored font size is still a positive integer. -/
theorem c8_font_size_guard :
    (∀ (s : AppState) (n : Int), n ≤ 0 → change_font_size s (some n) = s)
    ∧ ∀ (fs : FileSystem) (evs : List Event),
        0 < (runEvents fs initialState evs).font_size := by
  constructor
  · intro s n hn
    show (match (if 1 ≤ n then some n else none : Option Int) with
          | some new_size => { s with font_size := new_size }
          | none => s) = s
    rw [if_neg (by omega : ¬ (1 ≤ n))]
  · intro fs evs
    exact runEvents_font_pos fs evs initialState (by decide)

/-- Witness for C8: rejecting -3 and surviving a zero-input event. -/
theorem c8_font_size_guard_witness :
    change_font_size initialState (some (-3)) = initialState
    ∧ 0 < (runEvents (fun _ => FileState.notFound) initialState
        [Event.menuFontSize (some 0)]).font_size :=
  ⟨c8_font_size_guard.1 initialState (-3) (by decide),
   c8_font_size_guard.2 (fun _ => FileState.notFound)
     [Event.menuFontSize (some 0)]⟩

/-- C9 (confirmed): `read_latest_temperature` is total — every one of
the caught exception classes (`FileNotFoundError`, `IOError`, any other
`Exception`) is mapped to the returned value `None`, and on every file
state the function returns either a number or `None`. -/
theorem c9_no_exception :
    readFrom FileState.notFound = (none, ["File not found."])
    ∧ (∀ e, readFrom (FileState.ioError e) = (none, ["File error: " ++ e]))
    ∧ (∀ e, readFrom (FileState.otherError e)
        = (none, ["Unexpected error: " ++ e]))
    ∧ ∀ st : FileState, (readFrom st).1 = none
        ∨ ∃ q, (readFrom st).1 = some q := by
  refine ⟨by decide, fun e => rfl, fun e => rfl, fun st => ?_⟩
  cases hm : (readFrom st).1 with
  | none => exact Or.inl rfl
  | some q => exact Or.inr ⟨q, rfl⟩

/-- C10 (confirmed): every invocation of `update_temperature` with a
non-empty path arms a further timer callback, and each file selection
(whose synchronous refresh ends in `schedule_update`) adds one armed
chain on top of those already armed, so the number of armed chains
grows without bound: `n` selections leave `n` armed callbacks. -/
theorem c10_timer_chains :
    (∀ (fs : FileSystem) (s : AppState), s.file_path ≠ "" →
        (update_temperature fs s).pending = s.pending + 1)
    ∧ ∀ (fs : FileSystem) (n : Nat),
        (runEvents fs initialState
            (List.replicate n (Event.menuSelect "log"))).pending = n := by
  constructor
  · exact fun fs s h => update_pending_arm fs s h
  · intro fs n
    rw [select_chain_pending fs n initialState]
    show 0 + n = n
    omega

/-- Witness for C10: a concrete armed tick and three selections leaving
three armed chains. -/
theorem c10_timer_chains_witness :
    (update_temperature (fun _ => FileState.content ["x;y;1.0"])
        { initialState with file_path := "data.txt" }).pending
      = { initialState with file_path := "data.txt" }.pending + 1
    ∧ (runEvents (fun _ => FileState.notFound) initialState
        (List.replicate 3 (Event.menuSelect "log"))).pending = 3 :=
  ⟨c10_timer_chains.1 (fun _ => FileState.content ["x;y;1.0"])
      { initialState with file_path := "data.txt" } (by decide),
   c10_timer_chains.2 (fun _ => FileState.notFound) 3⟩
